import Mathlib

/-!
Shallow embedding of the lmath matrix core (src/mat.rs, src/projection.rs).

The matrix types `Mat2`, `Mat3`, `Mat4` and their operations are translated
from `src/mat.rs`; the projection builders from `src/projection.rs`.  The
scalar type `T` of the Rust source (a generic floating-point type) is embedded
as an arbitrary linear ordered field `α`, with `ℚ` used for concrete
evaluations.  Column-major storage is kept: field `x` is column 0, and the
source's `self[i][j]` (column `i`, row `j`) becomes `(m.col i).get j`.

The vector collaborators (`vec.rs`) and the fuzzy-equality collaborator are
not part of the given sources; they are modelled from the spec (sections 2
and 6), which lists the exact operations the matrices consume.
-/

namespace Lmath

variable {α : Type} [LinearOrderedField α]

/-- Modelled from the spec: the fuzzy-equality collaborator's library-wide
default epsilon (`FUZZY_EPSILON`, the value 1e-6 of the era's Rust library). -/
def FUZZY_EPSILON : α := 1 / 1000000

/-- Modelled from the spec: the fuzzy-equality collaborator's
`fuzzy_eq_eps(a, b, eps)` comparison primitive on scalars. -/
def fuzzy_eq_eps (a b eps : α) : Bool := decide (|a - b| < eps)

/-- Modelled from the spec: `fuzzy_eq(a, b)` using the library-wide default
epsilon. -/
def fuzzy_eq (a b : α) : Bool := fuzzy_eq_eps a b FUZZY_EPSILON

/-- Modelled from the spec: a 2-component column vector (`Vec2`). -/
structure Vec2 (α : Type) where
  x : α
  y : α
deriving DecidableEq

/-- Modelled from the spec: a 3-component column vector (`Vec3`). -/
structure Vec3 (α : Type) where
  x : α
  y : α
  z : α
deriving DecidableEq

/-- Modelled from the spec: a 4-component column vector (`Vec4`). -/
structure Vec4 (α : Type) where
  x : α
  y : α
  z : α
  w : α
deriving DecidableEq

def Vec2.new (x y : α) : Vec2 α := ⟨x, y⟩

/-- Indexed component access, `v[i]`. -/
def Vec2.get (v : Vec2 α) : Fin 2 → α
  | 0 => v.x
  | 1 => v.y

def Vec2.set (v : Vec2 α) : Fin 2 → α → Vec2 α
  | 0, a => ⟨a, v.y⟩
  | 1, a => ⟨v.x, a⟩

def Vec2.dot (a b : Vec2 α) : α := a.x * b.x + a.y * b.y

def Vec2.add_v (a b : Vec2 α) : Vec2 α := ⟨a.x + b.x, a.y + b.y⟩

def Vec2.sub_v (a b : Vec2 α) : Vec2 α := ⟨a.x - b.x, a.y - b.y⟩

def Vec2.mul_t (a : Vec2 α) (t : α) : Vec2 α := ⟨a.x * t, a.y * t⟩

def Vec2.div_t (a : Vec2 α) (t : α) : Vec2 α := ⟨a.x / t, a.y / t⟩

/-- Modelled from the spec: the two-element swap operation on vector
components, a simultaneous exchange of components `a` and `b`. -/
def Vec2.swap (v : Vec2 α) (a b : Fin 2) : Vec2 α :=
  (v.set a (v.get b)).set b (v.get a)

/-- Modelled from the spec: componentwise fuzzy comparison of vectors. -/
def Vec2.fuzzy_eq_eps (a b : Vec2 α) (eps : α) : Bool :=
  Lmath.fuzzy_eq_eps a.x b.x eps && Lmath.fuzzy_eq_eps a.y b.y eps

def Vec3.new (x y z : α) : Vec3 α := ⟨x, y, z⟩

def Vec3.get (v : Vec3 α) : Fin 3 → α
  | 0 => v.x
  | 1 => v.y
  | 2 => v.z

def Vec3.set (v : Vec3 α) : Fin 3 → α → Vec3 α
  | 0, a => ⟨a, v.y, v.z⟩
  | 1, a => ⟨v.x, a, v.z⟩
  | 2, a => ⟨v.x, v.y, a⟩

def Vec3.dot (a b : Vec3 α) : α := a.x * b.x + a.y * b.y + a.z * b.z

/-- Modelled from the spec: the 3-vector cross product consumed by the 3x3
determinant and inverse. -/
def Vec3.cross (a b : Vec3 α) : Vec3 α :=
  ⟨a.y * b.z - a.z * b.y, a.z * b.x - a.x * b.z, a.x * b.y - a.y * b.x⟩

def Vec3.add_v (a b : Vec3 α) : Vec3 α := ⟨a.x + b.x, a.y + b.y, a.z + b.z⟩

def Vec3.sub_v (a b : Vec3 α) : Vec3 α := ⟨a.x - b.x, a.y - b.y, a.z - b.z⟩

def Vec3.mul_t (a : Vec3 α) (t : α) : Vec3 α := ⟨a.x * t, a.y * t, a.z * t⟩

def Vec3.div_t (a : Vec3 α) (t : α) : Vec3 α := ⟨a.x / t, a.y / t, a.z / t⟩

def Vec3.swap (v : Vec3 α) (a b : Fin 3) : Vec3 α :=
  (v.set a (v.get b)).set b (v.get a)

def Vec3.fuzzy_eq_eps (a b : Vec3 α) (eps : α) : Bool :=
  Lmath.fuzzy_eq_eps a.x b.x eps && Lmath.fuzzy_eq_eps a.y b.y eps &&
  Lmath.fuzzy_eq_eps a.z b.z eps

def Vec4.new (x y z w : α) : Vec4 α := ⟨x, y, z, w⟩

def Vec4.get (v : Vec4 α) : Fin 4 → α
  | 0 => v.x
  | 1 => v.y
  | 2 => v.z
  | 3 => v.w

def Vec4.set (v : Vec4 α) : Fin 4 → α → Vec4 α
  | 0, a => ⟨a, v.y, v.z, v.w⟩
  | 1, a => ⟨v.x, a, v.z, v.w⟩
  | 2, a => ⟨v.x, v.y, a, v.w⟩
  | 3, a => ⟨v.x, v.y, v.z, a⟩

def Vec4.dot (a b : Vec4 α) : α := a.x * b.x + a.y * b.y + a.z * b.z + a.w * b.w

def Vec4.add_v (a b : Vec4 α) : Vec4 α := ⟨a.x + b.x, a.y + b.y, a.z + b.z, a.w + b.w⟩

def Vec4.sub_v (a b : Vec4 α) : Vec4 α := ⟨a.x - b.x, a.y - b.y, a.z - b.z, a.w - b.w⟩

def Vec4.mul_t (a : Vec4 α) (t : α) : Vec4 α := ⟨a.x * t, a.y * t, a.z * t, a.w * t⟩

def Vec4.div_t (a : Vec4 α) (t : α) : Vec4 α := ⟨a.x / t, a.y / t, a.z / t, a.w / t⟩

def Vec4.swap (v : Vec4 α) (a b : Fin 4) : Vec4 α :=
  (v.set a (v.get b)).set b (v.get a)

def Vec4.fuzzy_eq_eps (a b : Vec4 α) (eps : α) : Bool :=
  Lmath.fuzzy_eq_eps a.x b.x eps && Lmath.fuzzy_eq_eps a.y b.y eps &&
  Lmath.fuzzy_eq_eps a.z b.z eps && Lmath.fuzzy_eq_eps a.w b.w eps

/-- A 2 x 2 column major matrix: `x` is the first column, `y` the second
(struct `Mat2` of src/mat.rs). -/
structure Mat2 (α : Type) where
  x : Vec2 α
  y : Vec2 α
deriving DecidableEq

/-- `BaseMat2::from_cols` for `Mat2`. -/
def Mat2.from_cols (c0 c1 : Vec2 α) : Mat2 α := ⟨c0, c1⟩

/-- `BaseMat2::new` for `Mat2`: arguments are given column by column. -/
def Mat2.new (c0r0 c0r1 c1r0 c1r1 : α) : Mat2 α :=
  Mat2.from_cols (Vec2.new c0r0 c0r1) (Vec2.new c1r0 c1r1)

/-- The `Index` impl / `BaseMat::col`: `m[i]` is column `i`. -/
def Mat2.col (m : Mat2 α) : Fin 2 → Vec2 α
  | 0 => m.x
  | 1 => m.y

/-- `BaseMat::row` for `Mat2`: gathers component `i` of every column. -/
def Mat2.row (m : Mat2 α) (i : Fin 2) : Vec2 α :=
  Vec2.new ((m.col 0).get i) ((m.col 1).get i)

/-- `BaseMat::identity` for `Mat2`. -/
def Mat2.identity : Mat2 α := Mat2.new 1 0 0 1

/-- `BaseMat::mul_v` for `Mat2`. -/
def Mat2.mul_v (m : Mat2 α) (v : Vec2 α) : Vec2 α :=
  Vec2.new ((m.row 0).dot v) ((m.row 1).dot v)

/-- `BaseMat::mul_m` for `Mat2`, argument order as in the source. -/
def Mat2.mul_m (m other : Mat2 α) : Mat2 α :=
  Mat2.new ((m.row 0).dot (other.col 0)) ((m.row 1).dot (other.col 0))
           ((m.row 0).dot (other.col 1)) ((m.row 1).dot (other.col 1))

/-- `BaseMat::transpose` for `Mat2`. -/
def Mat2.transpose (m : Mat2 α) : Mat2 α :=
  Mat2.new ((m.col 0).get 0) ((m.col 1).get 0)
           ((m.col 0).get 1) ((m.col 1).get 1)

/-- `BaseMat::trace` for `Mat2`. -/
def Mat2.trace (m : Mat2 α) : α := (m.col 0).get 0 + (m.col 1).get 1

/-- `BaseMat::dot` for `Mat2`: `other.transpose().mul_m(self).trace()`. -/
def Mat2.dot (m other : Mat2 α) : α := (other.transpose.mul_m m).trace

/-- `BaseMat::determinant` for `Mat2`. -/
def Mat2.determinant (m : Mat2 α) : α :=
  (m.col 0).get 0 * (m.col 1).get 1 - (m.col 1).get 0 * (m.col 0).get 1

/-- `BaseMat::inverse` for `Mat2`: none when the determinant is fuzzy-zero,
otherwise the closed-form adjugate over the determinant. -/
def Mat2.inverse (m : Mat2 α) : Option (Mat2 α) :=
  let d := m.determinant
  if fuzzy_eq d 0 then none
  else some (Mat2.new ((m.col 1).get 1 / d) (-(m.col 0).get 1 / d)
                      (-(m.col 1).get 0 / d) ((m.col 0).get 0 / d))

/-- Functional update of one column (the `col_mut` access pattern). -/
def Mat2.set_col (m : Mat2 α) : Fin 2 → Vec2 α → Mat2 α
  | 0, v => ⟨v, m.y⟩
  | 1, v => ⟨m.x, v⟩

/-- `BaseMat::swap_cols` for `Mat2`: simultaneous exchange of columns `a`
and `b`. -/
def Mat2.swap_cols (m : Mat2 α) (a b : Fin 2) : Mat2 α :=
  (m.set_col a (m.col b)).set_col b (m.col a)

/-- `BaseMat::swap_rows` for `Mat2`: swaps components `a` and `b` of each
column in turn. -/
def Mat2.swap_rows (m : Mat2 α) (a b : Fin 2) : Mat2 α :=
  ⟨m.x.swap a b, m.y.swap a b⟩

/-- Element read at (column `c`, row `r`), the source's `self[c][r]`. -/
def Mat2.getElem (m : Mat2 α) (c r : Fin 2) : α := (m.col c).get r

/-- Element write at (column `c`, row `r`). -/
def Mat2.setElem (m : Mat2 α) (c r : Fin 2) (v : α) : Mat2 α :=
  m.set_col c ((m.col c).set r v)

/-- The `<->` exchange of the elements at positions (c1, r1) and (c2, r2). -/
def Mat2.swapElems (m : Mat2 α) (c1 r1 c2 r2 : Fin 2) : Mat2 α :=
  (m.setElem c1 r1 (m.getElem c2 r2)).setElem c2 r2 (m.getElem c1 r1)

/-- `BaseMat::transpose_self` for `Mat2`: the source's two element exchanges,
in order: `x[1] <-> y[0]` then `y[0] <-> x[1]`. -/
def Mat2.transpose_self (m : Mat2 α) : Mat2 α :=
  ((m.swapElems 0 1 1 0).swapElems 1 0 0 1)

/-- `BaseMat::is_invertible` for `Mat2`. -/
def Mat2.is_invertible (m : Mat2 α) : Bool := !(fuzzy_eq m.determinant 0)

/-- `BaseMat::invert_self` for `Mat2`: the fatal failure on a singular matrix
is embedded as `none`. -/
def Mat2.invert_self (m : Mat2 α) : Option (Mat2 α) :=
  match m.inverse with
  | some i => some i
  | none => none

/-- The `FuzzyEq` impl for `Mat2`: columnwise with an explicit epsilon. -/
def Mat2.fuzzy_eq_eps (m other : Mat2 α) (eps : α) : Bool :=
  (m.col 0).fuzzy_eq_eps (other.col 0) eps &&
  (m.col 1).fuzzy_eq_eps (other.col 1) eps

/-- The `FuzzyEq` impl for `Mat2` with the default epsilon. -/
def Mat2.fuzzy_eq (m other : Mat2 α) : Bool :=
  m.fuzzy_eq_eps other FUZZY_EPSILON

/-- `BaseMat2::from_angle`.  The source first computes
`cos_theta = cos(radians)` and `sin_theta = sin(radians)` through the numeric
collaborator (not among the given sources); the construction after those two
calls is embedded here, taking the two scalars as arguments. -/
def Mat2.from_angle (cos_theta sin_theta : α) : Mat2 α :=
  Mat2.new cos_theta (-sin_theta) sin_theta cos_theta

/-- A 3 x 3 column major matrix: `x`, `y`, `z` are the columns (struct `Mat3`
of src/mat.rs). -/
structure Mat3 (α : Type) where
  x : Vec3 α
  y : Vec3 α
  z : Vec3 α
deriving DecidableEq

/-- `BaseMat3::from_cols` for `Mat3`. -/
def Mat3.from_cols (c0 c1 c2 : Vec3 α) : Mat3 α := ⟨c0, c1, c2⟩

/-- `BaseMat3::new` for `Mat3`: arguments are given column by column. -/
def Mat3.new (c0r0 c0r1 c0r2 c1r0 c1r1 c1r2 c2r0 c2r1 c2r2 : α) : Mat3 α :=
  Mat3.from_cols (Vec3.new c0r0 c0r1 c0r2) (Vec3.new c1r0 c1r1 c1r2)
                 (Vec3.new c2r0 c2r1 c2r2)

/-- The `Index` impl / `BaseMat::col`: `m[i]` is column `i`. -/
def Mat3.col (m : Mat3 α) : Fin 3 → Vec3 α
  | 0 => m.x
  | 1 => m.y
  | 2 => m.z

/-- `BaseMat::row` for `Mat3`. -/
def Mat3.row (m : Mat3 α) (i : Fin 3) : Vec3 α :=
  Vec3.new ((m.col 0).get i) ((m.col 1).get i) ((m.col 2).get i)

/-- `BaseMat::identity` for `Mat3`. -/
def Mat3.identity : Mat3 α := Mat3.new 1 0 0 0 1 0 0 0 1

/-- `BaseMat::mul_v` for `Mat3`. -/
def Mat3.mul_v (m : Mat3 α) (v : Vec3 α) : Vec3 α :=
  Vec3.new ((m.row 0).dot v) ((m.row 1).dot v) ((m.row 2).dot v)

/-- `BaseMat::mul_m` for `Mat3`, argument order as in the source. -/
def Mat3.mul_m (m other : Mat3 α) : Mat3 α :=
  Mat3.new ((m.row 0).dot (other.col 0)) ((m.row 1).dot (other.col 0))
           ((m.row 2).dot (other.col 0))
           ((m.row 0).dot (other.col 1)) ((m.row 1).dot (other.col 1))
           ((m.row 2).dot (other.col 1))
           ((m.row 0).dot (other.col 2)) ((m.row 1).dot (other.col 2))
           ((m.row 2).dot (other.col 2))

/-- `BaseMat::transpose` for `Mat3`. -/
def Mat3.transpose (m : Mat3 α) : Mat3 α :=
  Mat3.new ((m.col 0).get 0) ((m.col 1).get 0) ((m.col 2).get 0)
           ((m.col 0).get 1) ((m.col 1).get 1) ((m.col 2).get 1)
           ((m.col 0).get 2) ((m.col 1).get 2) ((m.col 2).get 2)

/-- `BaseMat::trace` for `Mat3`. -/
def Mat3.trace (m : Mat3 α) : α :=
  (m.col 0).get 0 + (m.col 1).get 1 + (m.col 2).get 2

/-- `BaseMat::dot` for `Mat3`: `other.transpose().mul_m(self).trace()`. -/
def Mat3.dot (m other : Mat3 α) : α := (other.transpose.mul_m m).trace

/-- `BaseMat::determinant` for `Mat3`: the scalar triple product
`col0 . (col1 x col2)`. -/
def Mat3.determinant (m : Mat3 α) : α :=
  (m.col 0).dot ((m.col 1).cross (m.col 2))

/-- `BaseMat::inverse` for `Mat3`: none when the determinant is fuzzy-zero,
otherwise the adjugate assembled from cross products of columns, divided by
the determinant, transposed. -/
def Mat3.inverse (m : Mat3 α) : Option (Mat3 α) :=
  let d := m.determinant
  if fuzzy_eq d 0 then none
  else some ((Mat3.from_cols (((m.col 1).cross (m.col 2)).div_t d)
                             (((m.col 2).cross (m.col 0)).div_t d)
                             (((m.col 0).cross (m.col 1)).div_t d)).transpose)

/-- Functional update of one column (the `col_mut` access pattern). -/
def Mat3.set_col (m : Mat3 α) : Fin 3 → Vec3 α → Mat3 α
  | 0, v => ⟨v, m.y, m.z⟩
  | 1, v => ⟨m.x, v, m.z⟩
  | 2, v => ⟨m.x, m.y, v⟩

/-- `BaseMat::swap_cols` for `Mat3`. -/
def Mat3.swap_cols (m : Mat3 α) (a b : Fin 3) : Mat3 α :=
  (m.set_col a (m.col b)).set_col b (m.col a)

/-- `BaseMat::swap_rows` for `Mat3`. -/
def Mat3.swap_rows (m : Mat3 α) (a b : Fin 3) : Mat3 α :=
  ⟨m.x.swap a b, m.y.swap a b, m.z.swap a b⟩

/-- Element read at (column `c`, row `r`), the source's `self[c][r]`. -/
def Mat3.getElem (m : Mat3 α) (c r : Fin 3) : α := (m.col c).get r

/-- Element write at (column `c`, row `r`). -/
def Mat3.setElem (m : Mat3 α) (c r : Fin 3) (v : α) : Mat3 α :=
  m.set_col c ((m.col c).set r v)

/-- The `<->` exchange of the elements at positions (c1, r1) and (c2, r2). -/
def Mat3.swapElems (m : Mat3 α) (c1 r1 c2 r2 : Fin 3) : Mat3 α :=
  (m.setElem c1 r1 (m.getElem c2 r2)).setElem c2 r2 (m.getElem c1 r1)

/-- `BaseMat::transpose_self` for `Mat3`: the source's six element exchanges,
in source order. -/
def Mat3.transpose_self (m : Mat3 α) : Mat3 α :=
  (((((m.swapElems 0 1 1 0).swapElems 0 2 2 0).swapElems 1 0 0 1).swapElems
      1 2 2 1).swapElems 2 0 0 2).swapElems 2 1 1 2

/-- `BaseMat::is_invertible` for `Mat3`. -/
def Mat3.is_invertible (m : Mat3 α) : Bool := !(fuzzy_eq m.determinant 0)

/-- `BaseMat::invert_self` for `Mat3`: the fatal failure on a singular matrix
is embedded as `none`. -/
def Mat3.invert_self (m : Mat3 α) : Option (Mat3 α) :=
  match m.inverse with
  | some i => some i
  | none => none

/-- The `FuzzyEq` impl for `Mat3`: columnwise with an explicit epsilon. -/
def Mat3.fuzzy_eq_eps (m other : Mat3 α) (eps : α) : Bool :=
  (m.col 0).fuzzy_eq_eps (other.col 0) eps &&
  (m.col 1).fuzzy_eq_eps (other.col 1) eps &&
  (m.col 2).fuzzy_eq_eps (other.col 2) eps

/-- The `FuzzyEq` impl for `Mat3` with the default epsilon. -/
def Mat3.fuzzy_eq (m other : Mat3 α) : Bool :=
  m.fuzzy_eq_eps other FUZZY_EPSILON

/-- `BaseMat3::from_angle_x`, with the `cos(radians)` and `sin(radians)`
values of the numeric collaborator taken as arguments. -/
def Mat3.from_angle_x (cos_theta sin_theta : α) : Mat3 α :=
  Mat3.new 1 0 0
           0 cos_theta sin_theta
           0 (-sin_theta) cos_theta

/-- `BaseMat3::from_angle_y`, with the `cos(radians)` and `sin(radians)`
values of the numeric collaborator taken as arguments. -/
def Mat3.from_angle_y (cos_theta sin_theta : α) : Mat3 α :=
  Mat3.new cos_theta 0 (-sin_theta)
           0 1 0
           sin_theta 0 cos_theta

/-- `BaseMat3::from_angle_z`, with the `cos(radians)` and `sin(radians)`
values of the numeric collaborator taken as arguments. -/
def Mat3.from_angle_z (cos_theta sin_theta : α) : Mat3 α :=
  Mat3.new cos_theta sin_theta 0
           (-sin_theta) cos_theta 0
           0 0 1

/-- A 4 x 4 column major matrix: `x`, `y`, `z`, `w` are the columns (struct
`Mat4` of src/mat.rs). -/
structure Mat4 (α : Type) where
  x : Vec4 α
  y : Vec4 α
  z : Vec4 α
  w : Vec4 α
deriving DecidableEq

/-- `BaseMat4::from_cols` for `Mat4`. -/
def Mat4.from_cols (c0 c1 c2 c3 : Vec4 α) : Mat4 α := ⟨c0, c1, c2, c3⟩

/-- `BaseMat4::new` for `Mat4`: arguments are given column by column. -/
def Mat4.new (c0r0 c0r1 c0r2 c0r3 c1r0 c1r1 c1r2 c1r3
              c2r0 c2r1 c2r2 c2r3 c3r0 c3r1 c3r2 c3r3 : α) : Mat4 α :=
  Mat4.from_cols (Vec4.new c0r0 c0r1 c0r2 c0r3) (Vec4.new c1r0 c1r1 c1r2 c1r3)
                 (Vec4.new c2r0 c2r1 c2r2 c2r3) (Vec4.new c3r0 c3r1 c3r2 c3r3)

/-- The `Index` impl / `BaseMat::col`: `m[i]` is column `i`. -/
def Mat4.col (m : Mat4 α) : Fin 4 → Vec4 α
  | 0 => m.x
  | 1 => m.y
  | 2 => m.z
  | 3 => m.w

/-- `BaseMat::row` for `Mat4`. -/
def Mat4.row (m : Mat4 α) (i : Fin 4) : Vec4 α :=
  Vec4.new ((m.col 0).get i) ((m.col 1).get i) ((m.col 2).get i)
           ((m.col 3).get i)

/-- `BaseMat::identity` for `Mat4`. -/
def Mat4.identity : Mat4 α := Mat4.new 1 0 0 0 0 1 0 0 0 0 1 0 0 0 0 1

/-- `BaseMat::mul_v` for `Mat4`. -/
def Mat4.mul_v (m : Mat4 α) (v : Vec4 α) : Vec4 α :=
  Vec4.new ((m.row 0).dot v) ((m.row 1).dot v) ((m.row 2).dot v)
           ((m.row 3).dot v)

/-- `BaseMat::mul_m` for `Mat4`, argument order as in the source. -/
def Mat4.mul_m (m other : Mat4 α) : Mat4 α :=
  Mat4.new ((m.row 0).dot (other.col 0)) ((m.row 1).dot (other.col 0))
           ((m.row 2).dot (other.col 0)) ((m.row 3).dot (other.col 0))
           ((m.row 0).dot (other.col 1)) ((m.row 1).dot (other.col 1))
           ((m.row 2).dot (other.col 1)) ((m.row 3).dot (other.col 1))
           ((m.row 0).dot (other.col 2)) ((m.row 1).dot (other.col 2))
           ((m.row 2).dot (other.col 2)) ((m.row 3).dot (other.col 2))
           ((m.row 0).dot (other.col 3)) ((m.row 1).dot (other.col 3))
           ((m.row 2).dot (other.col 3)) ((m.row 3).dot (other.col 3))

/-- `BaseMat::transpose` for `Mat4`. -/
def Mat4.transpose (m : Mat4 α) : Mat4 α :=
  Mat4.new ((m.col 0).get 0) ((m.col 1).get 0) ((m.col 2).get 0) ((m.col 3).get 0)
           ((m.col 0).get 1) ((m.col 1).get 1) ((m.col 2).get 1) ((m.col 3).get 1)
           ((m.col 0).get 2) ((m.col 1).get 2) ((m.col 2).get 2) ((m.col 3).get 2)
           ((m.col 0).get 3) ((m.col 1).get 3) ((m.col 2).get 3) ((m.col 3).get 3)

/-- `BaseMat::trace` for `Mat4`. -/
def Mat4.trace (m : Mat4 α) : α :=
  (m.col 0).get 0 + (m.col 1).get 1 + (m.col 2).get 2 + (m.col 3).get 3

/-- `BaseMat::dot` for `Mat4`: `other.transpose().mul_m(self).trace()`. -/
def Mat4.dot (m other : Mat4 α) : α := (other.transpose.mul_m m).trace

/-- `BaseMat::determinant` for `Mat4`: cofactor expansion along the first row
through the four 3 x 3 minors `m0`..`m3`, exactly as assembled in the
source. -/
def Mat4.determinant (m : Mat4 α) : α :=
  let m0 : Mat3 α :=
    Mat3.new ((m.col 1).get 1) ((m.col 2).get 1) ((m.col 3).get 1)
             ((m.col 1).get 2) ((m.col 2).get 2) ((m.col 3).get 2)
             ((m.col 1).get 3) ((m.col 2).get 3) ((m.col 3).get 3)
  let m1 : Mat3 α :=
    Mat3.new ((m.col 0).get 1) ((m.col 2).get 1) ((m.col 3).get 1)
             ((m.col 0).get 2) ((m.col 2).get 2) ((m.col 3).get 2)
             ((m.col 0).get 3) ((m.col 2).get 3) ((m.col 3).get 3)
  let m2 : Mat3 α :=
    Mat3.new ((m.col 0).get 1) ((m.col 1).get 1) ((m.col 3).get 1)
             ((m.col 0).get 2) ((m.col 1).get 2) ((m.col 3).get 2)
             ((m.col 0).get 3) ((m.col 1).get 3) ((m.col 3).get 3)
  let m3 : Mat3 α :=
    Mat3.new ((m.col 0).get 1) ((m.col 1).get 1) ((m.col 2).get 1)
             ((m.col 0).get 2) ((m.col 1).get 2) ((m.col 2).get 2)
             ((m.col 0).get 3) ((m.col 1).get 3) ((m.col 2).get 3)
  (m.col 0).get 0 * m0.determinant -
  (m.col 1).get 0 * m1.determinant +
  (m.col 2).get 0 * m2.determinant -
  (m.col 3).get 0 * m3.determinant

/-- Functional update of one column (the `col_mut` access pattern). -/
def Mat4.set_col (m : Mat4 α) : Fin 4 → Vec4 α → Mat4 α
  | 0, v => ⟨v, m.y, m.z, m.w⟩
  | 1, v => ⟨m.x, v, m.z, m.w⟩
  | 2, v => ⟨m.x, m.y, v, m.w⟩
  | 3, v => ⟨m.x, m.y, m.z, v⟩

/-- `BaseMat::swap_cols` for `Mat4`. -/
def Mat4.swap_cols (m : Mat4 α) (a b : Fin 4) : Mat4 α :=
  (m.set_col a (m.col b)).set_col b (m.col a)

/-- `BaseMat::swap_rows` for `Mat4`. -/
def Mat4.swap_rows (m : Mat4 α) (a b : Fin 4) : Mat4 α :=
  ⟨m.x.swap a b, m.y.swap a b, m.z.swap a b, m.w.swap a b⟩

/-- The pivot search of `Mat4::inverse`: starting from `i1 = j`, scan rows
`i = j+1 .. 3` of column `j` and keep the row with the largest absolute
value, comparing with strict `>` as the source does. -/
def Mat4.pivotRow (m : Mat4 α) (j : Fin 4) : Fin 4 :=
  ((List.finRange 4).filter (fun i => j < i)).foldl
    (fun i1 i => if |(m.col j).get i| > |(m.col j).get i1| then i else i1) j

/-- One iteration `j` of the Gauss-Jordan loop of `Mat4::inverse`, acting on
the pair (working matrix `A`, accumulator `I`): find the pivot row of column
`j`, swap columns `i1` and `j` in both, scale column `j` of both by the
diagonal element of `A` read before either division, then for every `i /= j`
subtract column `j` times `A[i][j]` from column `i` of both (the accumulator
first, as in the source). -/
def Mat4.gjStep (s : Mat4 α × Mat4 α) (j : Fin 4) : Mat4 α × Mat4 α :=
  let A := s.1
  let En := s.2
  let i1 := A.pivotRow j
  let A := A.swap_cols i1 j
  let En := En.swap_cols i1 j
  let p := (A.col j).get j
  let En := En.set_col j ((En.col j).div_t p)
  let A := A.set_col j ((A.col j).div_t p)
  (List.finRange 4).foldl (fun t i =>
    if i = j then t
    else
      let A := t.1
      let En := t.2
      let En := En.set_col i ((En.col i).sub_v ((En.col j).mul_t ((A.col i).get j)))
      let A := A.set_col i ((A.col i).sub_v ((A.col j).mul_t ((A.col i).get j)))
      (A, En)) (A, En)

/-- `BaseMat::inverse` for `Mat4`: none when the determinant is fuzzy-zero,
otherwise Gauss-Jordan elimination, running `gjStep` for `j = 0 .. 3` on the
matrix augmented with the identity and returning the accumulator. -/
def Mat4.inverse (m : Mat4 α) : Option (Mat4 α) :=
  let d := m.determinant
  if fuzzy_eq d 0 then none
  else some (((List.finRange 4).foldl Mat4.gjStep (m, Mat4.identity)).2)

/-- Element read at (column `c`, row `r`), the source's `self[c][r]`. -/
def Mat4.getElem (m : Mat4 α) (c r : Fin 4) : α := (m.col c).get r

/-- Element write at (column `c`, row `r`). -/
def Mat4.setElem (m : Mat4 α) (c r : Fin 4) (v : α) : Mat4 α :=
  m.set_col c ((m.col c).set r v)

/-- The `<->` exchange of the elements at positions (c1, r1) and (c2, r2). -/
def Mat4.swapElems (m : Mat4 α) (c1 r1 c2 r2 : Fin 4) : Mat4 α :=
  (m.setElem c1 r1 (m.getElem c2 r2)).setElem c2 r2 (m.getElem c1 r1)

/-- `BaseMat::transpose_self` for `Mat4`: the source's twelve element
exchanges, in source order. -/
def Mat4.transpose_self (m : Mat4 α) : Mat4 α :=
  (((((((((((m.swapElems 0 1 1 0).swapElems 0 2 2 0).swapElems 0 3 3 0
    ).swapElems 1 0 0 1).swapElems 1 2 2 1).swapElems 1 3 3 1
    ).swapElems 2 0 0 2).swapElems 2 1 1 2).swapElems 2 3 3 2
    ).swapElems 3 0 0 3).swapElems 3 1 1 3).swapElems 3 2 2 3

/-- `BaseMat::is_invertible` for `Mat4`. -/
def Mat4.is_invertible (m : Mat4 α) : Bool := !(fuzzy_eq m.determinant 0)

/-- `BaseMat::invert_self` for `Mat4`: the fatal failure on a singular matrix
is embedded as `none`. -/
def Mat4.invert_self (m : Mat4 α) : Option (Mat4 α) :=
  match m.inverse with
  | some i => some i
  | none => none

/-- The `FuzzyEq` impl for `Mat4`: columnwise with an explicit epsilon. -/
def Mat4.fuzzy_eq_eps (m other : Mat4 α) (eps : α) : Bool :=
  (m.col 0).fuzzy_eq_eps (other.col 0) eps &&
  (m.col 1).fuzzy_eq_eps (other.col 1) eps &&
  (m.col 2).fuzzy_eq_eps (other.col 2) eps &&
  (m.col 3).fuzzy_eq_eps (other.col 3) eps

/-- The `FuzzyEq` impl for `Mat4` with the default epsilon. -/
def Mat4.fuzzy_eq (m other : Mat4 α) : Bool :=
  m.fuzzy_eq_eps other FUZZY_EPSILON

/-- `frustum` of src/projection.rs: the asymmetric perspective-projection
matrix, assembled exactly as in the source. -/
def frustum (left right bottom top near far : α) : Mat4 α :=
  let c0r0 := (2 * near) / (right - left)
  let c0r1 : α := 0
  let c0r2 : α := 0
  let c0r3 : α := 0
  let c1r0 : α := 0
  let c1r1 := (2 * near) / (top - bottom)
  let c1r2 : α := 0
  let c1r3 : α := 0
  let c2r0 := (right + left) / (right - left)
  let c2r1 := (top + bottom) / (top - bottom)
  let c2r2 := -(far + near) / (far - near)
  let c2r3 : α := -1
  let c3r0 : α := 0
  let c3r1 : α := 0
  let c3r2 := -(2 * far * near) / (far - near)
  let c3r3 : α := 0
  Mat4.new c0r0 c0r1 c0r2 c0r3
           c1r0 c1r1 c1r2 c1r3
           c2r0 c2r1 c2r2 c2r3
           c3r0 c3r1 c3r2 c3r3

/-- `perspective` of src/projection.rs.  The source computes
`ymax = near * tan(radians(fovy / 2))` through the numeric collaborator (not
among the given sources); the composite `fun a => tan(radians(a))` is taken
as the function argument `tanRad`. -/
def perspective (tanRad : α → α) (fovy aspect near far : α) : Mat4 α :=
  let ymax := near * tanRad (fovy / 2)
  let xmax := ymax * aspect
  frustum (-xmax) xmax (-ymax) ymax near far

/-! ## Helper lemmas -/

lemma fuzzy_eq_self (a : α) : fuzzy_eq a a = true := by
  simp [fuzzy_eq, fuzzy_eq_eps, FUZZY_EPSILON]

lemma Mat3.fuzzy_eq_refl (m : Mat3 α) : m.fuzzy_eq m = true := by
  simp [Mat3.fuzzy_eq, Mat3.fuzzy_eq_eps, Vec3.fuzzy_eq_eps,
    Lmath.fuzzy_eq_eps, FUZZY_EPSILON]

lemma Vec2.get_set_vec2 {β : Type} (v : Vec2 β) (i : Fin 2) (a : β) (k : Fin 2) :
    (v.set i a).get k = if k = i then a else v.get k := by
  fin_cases i <;> fin_cases k <;> simp [Vec2.set, Vec2.get]

lemma Vec3.get_set_vec3 {β : Type} (v : Vec3 β) (i : Fin 3) (a : β) (k : Fin 3) :
    (v.set i a).get k = if k = i then a else v.get k := by
  fin_cases i <;> fin_cases k <;> simp [Vec3.set, Vec3.get]

lemma Vec4.get_set_vec4 {β : Type} (v : Vec4 β) (i : Fin 4) (a : β) (k : Fin 4) :
    (v.set i a).get k = if k = i then a else v.get k := by
  fin_cases i <;> fin_cases k <;> simp [Vec4.set, Vec4.get]

lemma Vec2.get_swap_vec2 {β : Type} (v : Vec2 β) (a b k : Fin 2) :
    (v.swap a b).get k =
      if k = b then v.get a else if k = a then v.get b else v.get k := by
  simp [Vec2.swap, Vec2.get_set_vec2]

lemma Vec3.get_swap_vec3 {β : Type} (v : Vec3 β) (a b k : Fin 3) :
    (v.swap a b).get k =
      if k = b then v.get a else if k = a then v.get b else v.get k := by
  simp [Vec3.swap, Vec3.get_set_vec3]

lemma Vec4.get_swap_vec4 {β : Type} (v : Vec4 β) (a b k : Fin 4) :
    (v.swap a b).get k =
      if k = b then v.get a else if k = a then v.get b else v.get k := by
  simp [Vec4.swap, Vec4.get_set_vec4]

lemma Mat2.col_set_col_mat2 {β : Type} (m : Mat2 β) (i : Fin 2) (v : Vec2 β)
    (k : Fin 2) : (m.set_col i v).col k = if k = i then v else m.col k := by
  fin_cases i <;> fin_cases k <;> simp [Mat2.set_col, Mat2.col]

lemma Mat3.col_set_col_mat3 {β : Type} (m : Mat3 β) (i : Fin 3) (v : Vec3 β)
    (k : Fin 3) : (m.set_col i v).col k = if k = i then v else m.col k := by
  fin_cases i <;> fin_cases k <;> simp [Mat3.set_col, Mat3.col]

lemma Mat4.col_set_col_mat4 {β : Type} (m : Mat4 β) (i : Fin 4) (v : Vec4 β)
    (k : Fin 4) : (m.set_col i v).col k = if k = i then v else m.col k := by
  fin_cases i <;> fin_cases k <;> simp [Mat4.set_col, Mat4.col]

lemma Mat2.col_swap_cols_mat2 {β : Type} (m : Mat2 β) (a b k : Fin 2) :
    (m.swap_cols a b).col k =
      if k = b then m.col a else if k = a then m.col b else m.col k := by
  simp [Mat2.swap_cols, Mat2.col_set_col_mat2]

lemma Mat3.col_swap_cols_mat3 {β : Type} (m : Mat3 β) (a b k : Fin 3) :
    (m.swap_cols a b).col k =
      if k = b then m.col a else if k = a then m.col b else m.col k := by
  simp [Mat3.swap_cols, Mat3.col_set_col_mat3]

lemma Mat4.col_swap_cols_mat4 {β : Type} (m : Mat4 β) (a b k : Fin 4) :
    (m.swap_cols a b).col k =
      if k = b then m.col a else if k = a then m.col b else m.col k := by
  simp [Mat4.swap_cols, Mat4.col_set_col_mat4]

lemma Mat2.row_swap_rows_mat2 {β : Type} (m : Mat2 β) (a b k : Fin 2) :
    (m.swap_rows a b).row k =
      if k = b then m.row a else if k = a then m.row b else m.row k := by
  simp only [Mat2.swap_rows, Mat2.row, Mat2.col, Vec2.get_swap_vec2]
  split_ifs <;> rfl

lemma Mat3.row_swap_rows_mat3 {β : Type} (m : Mat3 β) (a b k : Fin 3) :
    (m.swap_rows a b).row k =
      if k = b then m.row a else if k = a then m.row b else m.row k := by
  simp only [Mat3.swap_rows, Mat3.row, Mat3.col, Vec3.get_swap_vec3]
  split_ifs <;> rfl

lemma Mat4.row_swap_rows_mat4 {β : Type} (m : Mat4 β) (a b k : Fin 4) :
    (m.swap_rows a b).row k =
      if k = b then m.row a else if k = a then m.row b else m.row k := by
  simp only [Mat4.swap_rows, Mat4.row, Mat4.col, Vec4.get_swap_vec4]
  split_ifs <;> rfl

/-! ## The claims -/

/-- C1: on the invertible cyclic permutation matrix with columns
(e1, e2, e3, e0) — determinant -1, so not fuzzy-zero and `is_invertible` —
the Gauss-Jordan elimination of `Mat4::inverse` divides by a zero pivot
(its pivot search scans the rows of column j but the following swap exchanges
columns, which does not bring the chosen element to position (j, j)), and the
matrix it returns, right-multiplied by the original, is not fuzzy-equal to
the identity.  This contradicts the claimed round-trip invariant
`M.mul_m(M.inverse().unwrap()) ≈ identity()` for every invertible `M`. -/
theorem c1_mat4_inverse_round_trip_fails_on_permutation :
    (Mat4.new (0:ℚ) 1 0 0  0 0 1 0  0 0 0 1  1 0 0 0).is_invertible = true ∧
    (Mat4.new (0:ℚ) 1 0 0  0 0 1 0  0 0 0 1  1 0 0 0).inverse =
      some (Mat4.new 0 0 0 0  1 0 0 0  0 0 0 0  0 0 1 0) ∧
    Mat4.fuzzy_eq
      ((Mat4.new (0:ℚ) 1 0 0  0 0 1 0  0 0 0 1  1 0 0 0).mul_m
        (Mat4.new 0 0 0 0  1 0 0 0  0 0 0 0  0 0 1 0))
      Mat4.identity = false := by
  refine ⟨?_, ?_, ?_⟩
  · norm_num [Mat4.is_invertible, Mat4.determinant, Mat4.new, Mat4.from_cols,
      Mat4.col, Mat3.determinant, Mat3.new, Mat3.from_cols, Mat3.col,
      Vec3.dot, Vec3.cross, Vec3.new, Vec4.new, Vec4.get,
      fuzzy_eq, Lmath.fuzzy_eq_eps, FUZZY_EPSILON]
  · norm_num [Mat4.inverse, Mat4.gjStep, Mat4.pivotRow, Mat4.determinant,
      Mat4.swap_cols, Mat4.set_col, Mat4.col, Mat4.identity, Mat4.new,
      Mat4.from_cols, Mat3.determinant, Mat3.new, Mat3.from_cols, Mat3.col,
      Vec3.dot, Vec3.cross, Vec3.new, Vec4.new, Vec4.get, Vec4.div_t,
      Vec4.mul_t, Vec4.sub_v, fuzzy_eq, Lmath.fuzzy_eq_eps, FUZZY_EPSILON,
      List.finRange, List.foldl, List.filter]
  · norm_num [Mat4.fuzzy_eq, Mat4.fuzzy_eq_eps, Mat4.mul_m, Mat4.identity,
      Mat4.new, Mat4.from_cols, Mat4.col, Mat4.row, Vec4.dot, Vec4.new,
      Vec4.get, Vec4.fuzzy_eq_eps, Lmath.fuzzy_eq_eps, FUZZY_EPSILON]

/-- C2: `transpose_self` exchanges every off-diagonal pair twice (the source
lists each unordered pair in both orders), so for every dimension it leaves
the matrix unchanged instead of transposing it; on any non-symmetric matrix,
such as `Mat2::new(1,2,3,4)`, the result differs from `transpose()`. -/
theorem c2_transpose_self_is_a_no_op :
    (∀ (β : Type) (m : Mat2 β), m.transpose_self = m) ∧
    (∀ (β : Type) (m : Mat3 β), m.transpose_self = m) ∧
    (∀ (β : Type) (m : Mat4 β), m.transpose_self = m) ∧
    (Mat2.new (1:ℚ) 2 3 4).transpose_self ≠ (Mat2.new (1:ℚ) 2 3 4).transpose ∧
    (Mat3.new (1:ℚ) 2 3 4 5 6 7 8 9).transpose_self ≠
      (Mat3.new (1:ℚ) 2 3 4 5 6 7 8 9).transpose ∧
    (Mat4.new (1:ℚ) 2 3 4 5 6 7 8 9 10 11 12 13 14 15 16).transpose_self ≠
      (Mat4.new (1:ℚ) 2 3 4 5 6 7 8 9 10 11 12 13 14 15 16).transpose := by
  have h2 : ∀ (β : Type) (m : Mat2 β), m.transpose_self = m := fun _ _ => rfl
  have h3 : ∀ (β : Type) (m : Mat3 β), m.transpose_self = m := fun _ _ => rfl
  have h4 : ∀ (β : Type) (m : Mat4 β), m.transpose_self = m := by
    intro β m
    obtain ⟨⟨a0,a1,a2,a3⟩,⟨b0,b1,b2,b3⟩,⟨c0,c1,c2,c3⟩,⟨d0,d1,d2,d3⟩⟩ := m
    simp only [Mat4.transpose_self, Mat4.swapElems, Mat4.setElem, Mat4.getElem,
      Mat4.set_col, Mat4.col, Vec4.set, Vec4.get]
  refine ⟨h2, h3, h4, ?_, ?_, ?_⟩
  · rw [h2]
    norm_num [Mat2.transpose, Mat2.new, Mat2.from_cols, Mat2.col, Vec2.new,
      Vec2.get, Mat2.mk.injEq, Vec2.mk.injEq]
  · rw [h3]
    norm_num [Mat3.transpose, Mat3.new, Mat3.from_cols, Mat3.col, Vec3.new,
      Vec3.get, Mat3.mk.injEq, Vec3.mk.injEq]
  · rw [h4]
    norm_num [Mat4.transpose, Mat4.new, Mat4.from_cols, Mat4.col, Vec4.new,
      Vec4.get, Mat4.mk.injEq, Vec4.mk.injEq]

/-- C3: for every dimension, `inverse` returns none exactly when the
determinant is fuzzy-equal to zero, and some matrix otherwise; in particular
a `Mat3` whose first two columns coincide has fuzzy-zero determinant and no
inverse. -/
theorem c3_inverse_none_iff_fuzzy_zero_determinant :
    (∀ m : Mat2 α, (m.inverse = none ↔ fuzzy_eq m.determinant 0 = true) ∧
      (m.inverse).isSome = !(fuzzy_eq m.determinant 0)) ∧
    (∀ m : Mat3 α, (m.inverse = none ↔ fuzzy_eq m.determinant 0 = true) ∧
      (m.inverse).isSome = !(fuzzy_eq m.determinant 0)) ∧
    (∀ m : Mat4 α, (m.inverse = none ↔ fuzzy_eq m.determinant 0 = true) ∧
      (m.inverse).isSome = !(fuzzy_eq m.determinant 0)) ∧
    (∀ v w : Vec3 α, fuzzy_eq (Mat3.from_cols v v w).determinant 0 = true ∧
      (Mat3.from_cols v v w).inverse = none) := by
  have hsing : ∀ v w : Vec3 α,
      fuzzy_eq (Mat3.from_cols v v w).determinant 0 = true := by
    intro v w
    have hd : (Mat3.from_cols v v w).determinant = 0 := by
      simp [Mat3.determinant, Mat3.from_cols, Mat3.col, Vec3.dot, Vec3.cross]
      ring
    rw [hd]
    exact fuzzy_eq_self 0
  refine ⟨fun m => ⟨?_, ?_⟩, fun m => ⟨?_, ?_⟩, fun m => ⟨?_, ?_⟩,
    fun v w => ⟨hsing v w, ?_⟩⟩
  · rw [Mat2.inverse]; split <;> simp_all
  · rw [Mat2.inverse]; split <;> simp_all
  · rw [Mat3.inverse]; split <;> simp_all
  · rw [Mat3.inverse]; split <;> simp_all
  · rw [Mat4.inverse]; split <;> simp_all
  · rw [Mat4.inverse]; split <;> simp_all
  · rw [Mat3.inverse]
    split <;> simp_all [hsing v w]

/-- C4 (counterexample): at the angle pi/2, where cos is 0 and sin is 1, the
first stored column of `Mat2::from_angle` is (0, -1), not (0, 1), and the
second is (1, 0), not (-1, 0): the claim's reading of the column-major
layout is false. -/
theorem c4_stored_columns_counterexample :
    ¬((Mat2.from_angle (0:ℚ) 1).col 0 = Vec2.new 0 1 ∧
      (Mat2.from_angle (0:ℚ) 1).col 1 = Vec2.new (-1) 0) := by
  norm_num [Mat2.from_angle, Mat2.new, Mat2.from_cols, Mat2.col, Vec2.new,
    Vec2.mk.injEq]

/-- C4 (amended): `from_angle` builds the rotation matrix whose mathematical
rows are (cos, sin) and (-sin, cos); in the column-major storage this means
the first stored column is (cos, -sin) and the second stored column is
(sin, cos). -/
theorem c4_from_angle_layout (c s : α) :
    (Mat2.from_angle c s).col 0 = Vec2.new c (-s) ∧
    (Mat2.from_angle c s).col 1 = Vec2.new s c ∧
    (Mat2.from_angle c s).row 0 = Vec2.new c s ∧
    (Mat2.from_angle c s).row 1 = Vec2.new (-s) c := by
  refine ⟨rfl, rfl, ?_, ?_⟩ <;>
    simp [Mat2.from_angle, Mat2.new, Mat2.from_cols, Mat2.col, Mat2.row,
      Vec2.new, Vec2.get]

/-- C5: the frustum matrix `frustum(-1,1,-1,1,1,10)` applied through the
homogeneous product `mul_v` to the point (0,0,-1,1) on the near plane yields
a clip-space vector with z/w = -1, the OpenGL near-plane value. -/
theorem c5_frustum_maps_near_plane_point :
    ((frustum (-1:ℚ) 1 (-1) 1 1 10).mul_v (Vec4.new 0 0 (-1) 1)).z /
      ((frustum (-1:ℚ) 1 (-1) 1 1 10).mul_v (Vec4.new 0 0 (-1) 1)).w = -1 := by
  norm_num [frustum, Mat4.mul_v, Mat4.new, Mat4.from_cols, Mat4.row, Mat4.col,
    Vec4.new, Vec4.get, Vec4.dot]

/-- C6: `perspective` computes `ymax = near * tan(radians(fovy/2))` and
`xmax = ymax * aspectRatio` and delegates to
`frustum(-xmax, xmax, -ymax, ymax, near, far)`, for every choice of the
numeric collaborator's `tan . radians` composite and all scalar inputs. -/
theorem c6_perspective_delegates_to_frustum (tanRad : α → α)
    (fovy aspect near far : α) :
    perspective tanRad fovy aspect near far =
      frustum (-(near * tanRad (fovy / 2) * aspect))
              (near * tanRad (fovy / 2) * aspect)
              (-(near * tanRad (fovy / 2)))
              (near * tanRad (fovy / 2)) near far := rfl

/-- C7: every elementary rotation (about x, y or z) built from a point
(c, s) on the unit circle — c and s standing for the cosine and sine the
source computes — has an inverse, and that inverse is fuzzy-equal to the
transpose; indeed the inverse here is exactly the transpose. -/
theorem c7_rotation_inverse_fuzzy_equals_transpose (c s : α)
    (h : c ^ 2 + s ^ 2 = 1) :
    ((Mat3.from_angle_x c s).inverse =
        some ((Mat3.from_angle_x c s).transpose) ∧
      Mat3.fuzzy_eq ((Mat3.from_angle_x c s).transpose)
        ((Mat3.from_angle_x c s).transpose) = true) ∧
    ((Mat3.from_angle_y c s).inverse =
        some ((Mat3.from_angle_y c s).transpose) ∧
      Mat3.fuzzy_eq ((Mat3.from_angle_y c s).transpose)
        ((Mat3.from_angle_y c s).transpose) = true) ∧
    ((Mat3.from_angle_z c s).inverse =
        some ((Mat3.from_angle_z c s).transpose) ∧
      Mat3.fuzzy_eq ((Mat3.from_angle_z c s).transpose)
        ((Mat3.from_angle_z c s).transpose) = true) := by
  refine ⟨⟨?_, Mat3.fuzzy_eq_refl _⟩, ⟨?_, Mat3.fuzzy_eq_refl _⟩,
    ⟨?_, Mat3.fuzzy_eq_refl _⟩⟩
  · have hd : (Mat3.from_angle_x c s).determinant = 1 := by
      simp [Mat3.determinant, Mat3.from_angle_x, Mat3.new, Mat3.from_cols,
        Mat3.col, Vec3.dot, Vec3.cross, Vec3.new]
      linear_combination h
    have hfz : fuzzy_eq (Mat3.from_angle_x c s).determinant 0 = false := by
      rw [hd]
      norm_num [fuzzy_eq, Lmath.fuzzy_eq_eps, FUZZY_EPSILON]
    simp only [Mat3.inverse, hfz]
    rw [hd]
    simp [Mat3.from_angle_x, Mat3.new, Mat3.from_cols, Mat3.col,
      Mat3.transpose, Vec3.cross, Vec3.div_t, Vec3.new, Vec3.get,
      Mat3.mk.injEq, Vec3.mk.injEq]
    linear_combination h
  · have hd : (Mat3.from_angle_y c s).determinant = 1 := by
      simp [Mat3.determinant, Mat3.from_angle_y, Mat3.new, Mat3.from_cols,
        Mat3.col, Vec3.dot, Vec3.cross, Vec3.new]
      linear_combination h
    have hfz : fuzzy_eq (Mat3.from_angle_y c s).determinant 0 = false := by
      rw [hd]
      norm_num [fuzzy_eq, Lmath.fuzzy_eq_eps, FUZZY_EPSILON]
    simp only [Mat3.inverse, hfz]
    rw [hd]
    simp [Mat3.from_angle_y, Mat3.new, Mat3.from_cols, Mat3.col,
      Mat3.transpose, Vec3.cross, Vec3.div_t, Vec3.new, Vec3.get,
      Mat3.mk.injEq, Vec3.mk.injEq]
    linear_combination h
  · have hd : (Mat3.from_angle_z c s).determinant = 1 := by
      simp [Mat3.determinant, Mat3.from_angle_z, Mat3.new, Mat3.from_cols,
        Mat3.col, Vec3.dot, Vec3.cross, Vec3.new]
      linear_combination h
    have hfz : fuzzy_eq (Mat3.from_angle_z c s).determinant 0 = false := by
      rw [hd]
      norm_num [fuzzy_eq, Lmath.fuzzy_eq_eps, FUZZY_EPSILON]
    simp only [Mat3.inverse, hfz]
    rw [hd]
    simp [Mat3.from_angle_z, Mat3.new, Mat3.from_cols, Mat3.col,
      Mat3.transpose, Vec3.cross, Vec3.div_t, Vec3.new, Vec3.get,
      Mat3.mk.injEq, Vec3.mk.injEq]
    linear_combination h

/-- C7 (witness): the hypothesis and the conclusion at the concrete unit
circle point (3/5, 4/5), the cosine-sine pair of a real angle. -/
theorem c7_rotation_inverse_fuzzy_equals_transpose_witness :
    ((3:ℚ)/5) ^ 2 + ((4:ℚ)/5) ^ 2 = 1 ∧
    (((Mat3.from_angle_x ((3:ℚ)/5) ((4:ℚ)/5)).inverse =
        some ((Mat3.from_angle_x ((3:ℚ)/5) ((4:ℚ)/5)).transpose) ∧
      Mat3.fuzzy_eq ((Mat3.from_angle_x ((3:ℚ)/5) ((4:ℚ)/5)).transpose)
        ((Mat3.from_angle_x ((3:ℚ)/5) ((4:ℚ)/5)).transpose) = true) ∧
    ((Mat3.from_angle_y ((3:ℚ)/5) ((4:ℚ)/5)).inverse =
        some ((Mat3.from_angle_y ((3:ℚ)/5) ((4:ℚ)/5)).transpose) ∧
      Mat3.fuzzy_eq ((Mat3.from_angle_y ((3:ℚ)/5) ((4:ℚ)/5)).transpose)
        ((Mat3.from_angle_y ((3:ℚ)/5) ((4:ℚ)/5)).transpose) = true) ∧
    ((Mat3.from_angle_z ((3:ℚ)/5) ((4:ℚ)/5)).inverse =
        some ((Mat3.from_angle_z ((3:ℚ)/5) ((4:ℚ)/5)).transpose) ∧
      Mat3.fuzzy_eq ((Mat3.from_angle_z ((3:ℚ)/5) ((4:ℚ)/5)).transpose)
        ((Mat3.from_angle_z ((3:ℚ)/5) ((4:ℚ)/5)).transpose) = true)) :=
  ⟨by norm_num,
   c7_rotation_inverse_fuzzy_equals_transpose ((3:ℚ)/5) ((4:ℚ)/5) (by norm_num)⟩

/-- C8: for every dimension, `A.dot(B)` equals
`trace(transpose(B).mul_m(A))` exactly — the source defines `dot` as
precisely that expression. -/
theorem c8_dot_is_trace_of_transpose_product :
    (∀ A B : Mat2 α, A.dot B = ((B.transpose).mul_m A).trace) ∧
    (∀ A B : Mat3 α, A.dot B = ((B.transpose).mul_m A).trace) ∧
    (∀ A B : Mat4 α, A.dot B = ((B.transpose).mul_m A).trace) :=
  ⟨fun _ _ => rfl, fun _ _ => rfl, fun _ _ => rfl⟩

/-- C9: for every dimension and all in-range indices, `swap_cols(a,b)`
puts the old column b at a and the old column a at b and leaves every other
column unchanged, and `swap_rows(a,b)` does the same to rows. -/
theorem c9_swap_cols_rows_exchange :
    (∀ (β : Type) (m : Mat2 β) (a b : Fin 2),
      ((m.swap_cols a b).col a = m.col b ∧ (m.swap_cols a b).col b = m.col a ∧
        ∀ i, i ≠ a → i ≠ b → (m.swap_cols a b).col i = m.col i) ∧
      ((m.swap_rows a b).row a = m.row b ∧ (m.swap_rows a b).row b = m.row a ∧
        ∀ i, i ≠ a → i ≠ b → (m.swap_rows a b).row i = m.row i)) ∧
    (∀ (β : Type) (m : Mat3 β) (a b : Fin 3),
      ((m.swap_cols a b).col a = m.col b ∧ (m.swap_cols a b).col b = m.col a ∧
        ∀ i, i ≠ a → i ≠ b → (m.swap_cols a b).col i = m.col i) ∧
      ((m.swap_rows a b).row a = m.row b ∧ (m.swap_rows a b).row b = m.row a ∧
        ∀ i, i ≠ a → i ≠ b → (m.swap_rows a b).row i = m.row i)) ∧
    (∀ (β : Type) (m : Mat4 β) (a b : Fin 4),
      ((m.swap_cols a b).col a = m.col b ∧ (m.swap_cols a b).col b = m.col a ∧
        ∀ i, i ≠ a → i ≠ b → (m.swap_cols a b).col i = m.col i) ∧
      ((m.swap_rows a b).row a = m.row b ∧ (m.swap_rows a b).row b = m.row a ∧
        ∀ i, i ≠ a → i ≠ b → (m.swap_rows a b).row i = m.row i)) := by
  refine ⟨fun β m a b => ?_, fun β m a b => ?_, fun β m a b => ?_⟩ <;>
  · refine ⟨⟨?_, ?_, fun i hia hib => ?_⟩, ⟨?_, ?_, fun i hia hib => ?_⟩⟩
    · by_cases hab : a = b
      · subst hab
        simp [Mat2.col_swap_cols_mat2, Mat3.col_swap_cols_mat3, Mat4.col_swap_cols_mat4]
      · simp [Mat2.col_swap_cols_mat2, Mat3.col_swap_cols_mat3, Mat4.col_swap_cols_mat4, hab]
    · simp [Mat2.col_swap_cols_mat2, Mat3.col_swap_cols_mat3, Mat4.col_swap_cols_mat4]
    · simp [Mat2.col_swap_cols_mat2, Mat3.col_swap_cols_mat3, Mat4.col_swap_cols_mat4,
        hia, hib]
    · by_cases hab : a = b
      · subst hab
        simp [Mat2.row_swap_rows_mat2, Mat3.row_swap_rows_mat3, Mat4.row_swap_rows_mat4]
      · simp [Mat2.row_swap_rows_mat2, Mat3.row_swap_rows_mat3, Mat4.row_swap_rows_mat4, hab]
    · simp [Mat2.row_swap_rows_mat2, Mat3.row_swap_rows_mat3, Mat4.row_swap_rows_mat4]
    · simp [Mat2.row_swap_rows_mat2, Mat3.row_swap_rows_mat3, Mat4.row_swap_rows_mat4,
        hia, hib]

/-- C10: for every dimension, `is_invertible` is true exactly when `inverse`
returns some matrix; both are the same test — the determinant is not
fuzzy-equal to zero — and `invert_self` succeeds exactly when
`is_invertible` holds, so checking it first rules out the fatal failure. -/
theorem c10_is_invertible_agrees_with_inverse :
    (∀ m : Mat2 α, (m.is_invertible = true ↔ (m.inverse).isSome = true) ∧
      m.is_invertible = !(fuzzy_eq m.determinant 0) ∧
      (m.invert_self).isSome = m.is_invertible) ∧
    (∀ m : Mat3 α, (m.is_invertible = true ↔ (m.inverse).isSome = true) ∧
      m.is_invertible = !(fuzzy_eq m.determinant 0) ∧
      (m.invert_self).isSome = m.is_invertible) ∧
    (∀ m : Mat4 α, (m.is_invertible = true ↔ (m.inverse).isSome = true) ∧
      m.is_invertible = !(fuzzy_eq m.determinant 0) ∧
      (m.invert_self).isSome = m.is_invertible) := by
  refine ⟨fun m => ⟨?_, rfl, ?_⟩, fun m => ⟨?_, rfl, ?_⟩,
    fun m => ⟨?_, rfl, ?_⟩⟩
  · rw [Mat2.is_invertible]
    cases h : fuzzy_eq m.determinant 0 <;> simp_all [Mat2.inverse, h]
  · rw [Mat2.invert_self]
    rw [Mat2.is_invertible, Mat2.inverse]
    split <;> simp_all
  · rw [Mat3.is_invertible]
    cases h : fuzzy_eq m.determinant 0 <;> simp_all [Mat3.inverse, h]
  · rw [Mat3.invert_self]
    rw [Mat3.is_invertible, Mat3.inverse]
    split <;> simp_all
  · rw [Mat4.is_invertible]
    cases h : fuzzy_eq m.determinant 0 <;> simp_all [Mat4.inverse, h]
  · rw [Mat4.invert_self]
    rw [Mat4.is_invertible, Mat4.inverse]
    split <;> simp_all

end Lmath
